import Mathlib

/-!
Shallow embedding of the kaspa-hashrate-app client widget
(src/app/components/HashrateChart.tsx and the earlier component variant in
src/unnamed/part_000), together with theorems checking the specification's
claims about the cache store, data fetcher, range filter and navigator
controller.

Conventions of the embedding:
* JavaScript epoch-millisecond times are `Int` where only integer
  arithmetic and comparisons occur (cache, range filter), and `ℚ` where the
  source divides by pixel widths or day lengths (navigator geometry,
  resolution policy).  All sample timestamps carry integral milliseconds.
* A JavaScript date string is modelled by the instant it parses to
  (`new Date(s).getTime()`) plus a flag recording whether it is the
  canonical ISO rendering produced by `toISOString`; parsing ignores the
  flag, so `toISOString` round-trips the instant exactly.
* `localStorage` is an association list of stored values plus fault flags;
  a raised storage exception is modelled by the corresponding flag, and the
  source's `try`/`catch` blocks become the branches consuming those flags.
* Asynchronous `fetch` is modelled by passing the eventual `Response`
  (status and parsed JSON body) as an argument; the promise chain becomes
  an `Except` value, and the number of network requests issued is returned
  explicitly so that cache-hit behaviour is observable.
* JavaScript `Date` month arithmetic (date-fns `subMonths`) is modelled in
  UTC with the standard civil-calendar conversion (day clamping to the end
  of the target month, as date-fns does).
-/

namespace Kaspa

/-- Model of a JavaScript date string: the instant it parses to
(epoch milliseconds) and whether it is the canonical ISO-8601 rendering
produced by `Date.prototype.toISOString`. -/
structure DateString where
  ms : Int
  isIso : Bool
deriving DecidableEq, Repr

/-- Result of `new Date(s).getTime()`: parsing recovers the instant and
forgets the rendering. -/
def dateGetTime (s : DateString) : Int := s.ms

/-- Result of `new Date(t).toISOString()`: the canonical rendering of the
instant `t` (millisecond precision). -/
def toISOString (t : Int) : DateString := ⟨t, true⟩

/-- interface HashrateData (HashrateChart.tsx). -/
structure HashrateData where
  daaScore : Int
  hashrate_kh : ℚ
  date_time : DateString
deriving DecidableEq, Repr

/-- interface SlimHashrateData: slim version of the data for storage. -/
structure SlimHashrateData where
  d : Int
  t : Int
  h : ℚ
deriving DecidableEq, Repr

/-- interface CacheEntry. -/
structure CacheEntry where
  data : List SlimHashrateData
  timestamp : Int
deriving DecidableEq, Repr

/-- function slimDownData. -/
def slimDownData (data : List HashrateData) : List SlimHashrateData :=
  data.map fun item => ⟨item.daaScore, dateGetTime item.date_time, item.hashrate_kh⟩

/-- function expandData. -/
def expandData (data : List SlimHashrateData) : List HashrateData :=
  data.map fun item => ⟨item.d, item.h, toISOString item.t⟩

/-- A value found in `localStorage` under some key: either a string that
`JSON.parse` rejects or fails to shape into a `CacheEntry` (`junk`), or a
well-formed serialized entry. -/
inductive StoredVal where
  | junk
  | entry (e : CacheEntry)
deriving DecidableEq, Repr

/-- Model of `localStorage` together with fault flags: each flag set means
the corresponding storage operation throws (quota or access error). -/
structure Storage where
  items : List (String × StoredVal)
  getThrows : Bool
  setThrows : Bool
  removeThrows : Bool
deriving DecidableEq, Repr

/-- Association-list lookup, the model of `localStorage.getItem`. -/
def lookupStore (items : List (String × StoredVal)) (key : String) : Option StoredVal :=
  match items with
  | [] => none
  | (k, v) :: rest => if k = key then some v else lookupStore rest key

/-- Association-list insert-or-replace, the model of `localStorage.setItem`. -/
def insertStore (items : List (String × StoredVal)) (key : String) (v : StoredVal) :
    List (String × StoredVal) :=
  match items with
  | [] => [(key, v)]
  | (k, w) :: rest =>
    if k = key then (k, v) :: rest else (k, w) :: insertStore rest key v

/-- Association-list removal, the model of `localStorage.removeItem`. -/
def removeStore (items : List (String × StoredVal)) (key : String) :
    List (String × StoredVal) :=
  items.filter fun p => !(p.1 = key)

/-- Cache key: `kaspa-cache-` followed by the resolution or the sentinel
`full` (the template literal in getCachedData/setCachedData). -/
def cacheKey (resolution : Option String) : String :=
  "kaspa-cache-" ++ resolution.getD "full"

/-- Freshness window: 10 minutes in milliseconds. -/
def expiryTime : Int := 10 * 60 * 1000

/-- function getCachedData.  Returns the parsed samples (or `none` for any
miss, expiry or storage fault — every exception is caught) together with
the storage state after the read (expired entries are removed when the
removal itself does not throw). -/
def getCachedData (st : Storage) (now : Int) (resolution : Option String) :
    Option (List HashrateData) × Storage :=
  if st.getThrows then
    (none, st)
  else
    match lookupStore st.items (cacheKey resolution) with
    | none => (none, st)
    | some .junk => (none, st)
    | some (.entry e) =>
      if expiryTime < now - e.timestamp then
        if st.removeThrows then
          (none, st)
        else
          (none, { st with items := removeStore st.items (cacheKey resolution) })
      else
        (some (expandData e.data), st)

/-- function setCachedData.  Returns the storage state after the write and
whether the write failed (in which case it was only logged). -/
def setCachedData (st : Storage) (now : Int) (resolution : Option String)
    (data : List HashrateData) : Storage × Bool :=
  if st.setThrows then
    (st, true)
  else
    ({ st with
        items := insertStore st.items (cacheKey resolution)
          (.entry ⟨slimDownData data, now⟩) },
     false)

/-- Model of a settled `fetch` response: HTTP status and the parsed JSON
body. -/
structure NetResponse where
  status : Nat
  body : List HashrateData
deriving DecidableEq, Repr

/-- Property `Response.ok` of the fetch API: status in the 2xx range. -/
def NetResponse.ok (r : NetResponse) : Bool :=
  200 ≤ r.status && r.status ≤ 299

/-- function fetchWithCache.  Returns the settled result of the promise
chain, the storage state afterwards, and the number of network requests
issued. -/
def fetchWithCache (st : Storage) (now : Int) (resolution : Option String)
    (resp : NetResponse) : Except String (List HashrateData) × Storage × Nat :=
  match getCachedData st now resolution with
  | (some cachedData, st1) => (.ok cachedData, st1, 0)
  | (none, st1) =>
    if !resp.ok then
      (.error "Network response was not ok", st1, 1)
    else
      let written := setCachedData st1 now resolution resp.body
      (.ok resp.body, written.1, 1)

/-- function getResolutionForRange (times in epoch milliseconds). -/
def getResolutionForRange (startDate endDate : ℚ) : Option String :=
  let rangeDays := (endDate - startDate) / (1000 * 60 * 60 * 24)
  if rangeDays ≤ 14 then none
  else if rangeDays ≤ 60 then some "3h"
  else some "1d"

/-- Leap-year test of the proleptic Gregorian calendar (UTC model of the
JavaScript `Date`). -/
def isLeapYear (y : Int) : Bool :=
  y % 4 = 0 && (y % 100 ≠ 0 || y % 400 = 0)

/-- Number of days in month `m` (1-based) of year `y`. -/
def daysInMonth (y m : Int) : Int :=
  if m = 2 then (if isLeapYear y then 29 else 28)
  else if m = 4 ∨ m = 6 ∨ m = 9 ∨ m = 11 then 30
  else 31

/-- Civil date (year, month 1..12, day 1..31) of a day count since the
epoch, standard civil-calendar conversion. -/
def civilFromDays (z0 : Int) : Int × Int × Int :=
  let z := z0 + 719468
  let era := z.ediv 146097
  let doe := z.emod 146097
  let yoe := (doe - doe.ediv 1460 + doe.ediv 36524 - doe.ediv 146096).ediv 365
  let y := yoe + era * 400
  let doy := doe - (365 * yoe + yoe.ediv 4 - yoe.ediv 100)
  let mp := (5 * doy + 2).ediv 153
  let d := doy - (153 * mp + 2).ediv 5 + 1
  let m := mp + (if mp < 10 then 3 else -9)
  (if m ≤ 2 then y + 1 else y, m, d)

/-- Day count since the epoch of a civil date, inverse of `civilFromDays`. -/
def daysFromCivil (y m d : Int) : Int :=
  let y1 := if m ≤ 2 then y - 1 else y
  let era := y1.ediv 400
  let yoe := y1 - era * 400
  let mp := if 2 < m then m - 3 else m + 9
  let doy := (153 * mp + 2).ediv 5 + d - 1
  let doe := yoe * 365 + yoe.ediv 4 - yoe.ediv 100 + doy
  era * 146097 + doe - 719468

/-- date-fns subHours on an epoch-millisecond instant. -/
def subHours (t n : Int) : Int := t - n * 3600000

/-- date-fns subDays on an epoch-millisecond instant. -/
def subDays (t n : Int) : Int := t - n * 86400000

/-- date-fns subMonths on an epoch-millisecond instant (UTC model):
calendar-month arithmetic keeping the day of month and the time of day,
clamping the day to the last day of the target month. -/
def subMonths (t n : Int) : Int :=
  let day := t.ediv 86400000
  let msOfDay := t.emod 86400000
  let c := civilFromDays day
  let months := c.1 * 12 + (c.2.1 - 1) - n
  let y2 := months.ediv 12
  let m2 := months.emod 12 + 1
  let d2 := min c.2.2 (daysInMonth y2 m2)
  daysFromCivil y2 m2 d2 * 86400000 + msOfDay

/-- One element of the dateRanges table (src/unnamed/part_000). -/
structure DateRangeOption where
  label : String
  value : String
  getFn : Int → Int

/-- const dateRanges (src/unnamed/part_000); `new Date(0)` is the epoch. -/
def dateRanges : List DateRangeOption :=
  [ ⟨"24 Hours", "24h", fun d => subHours d 24⟩,
    ⟨"7 Days", "7d", fun d => subDays d 7⟩,
    ⟨"30 Days", "30d", fun d => subDays d 30⟩,
    ⟨"3 Months", "3m", fun d => subMonths d 3⟩,
    ⟨"6 Months", "6m", fun d => subMonths d 6⟩,
    ⟨"1 Year", "1y", fun d => subMonths d 12⟩,
    ⟨"2 Years", "2y", fun d => subMonths d 24⟩,
    ⟨"3 Years", "3y", fun d => subMonths d 36⟩,
    ⟨"All", "all", fun _ => 0⟩ ]

/-- const filteredData (src/unnamed/part_000): keep the samples whose
timestamp is at or after the selected preset's start instant; an unknown
preset value keeps everything (`if (!selectedRange) return true`). -/
def filteredData (data : List HashrateData) (dateRange : String) (now : Int) :
    List HashrateData :=
  data.filter fun item =>
    let itemDate := dateGetTime item.date_time
    match dateRanges.find? (fun r => r.value == dateRange) with
    | none => true
    | some selectedRange => decide (selectedRange.getFn now ≤ itemDate)

/-- Start instant of a named preset at time `now`: the `getFn` of the
matching dateRanges row. -/
def presetStart (dateRange : String) (now : Int) : Option Int :=
  (dateRanges.find? (fun r => r.value == dateRange)).map fun r => r.getFn now

/-- Selected Range of the navigator (fields `start`/`end` in the source;
`end` is reserved in Lean). Times in epoch milliseconds as rationals. -/
structure SelRange where
  start : ℚ
  endTime : ℚ
deriving DecidableEq, Repr

/-- Minimum 1 hour window (handleDragMove). -/
def minWindowSize : ℚ := 1000 * 60 * 60

/-- Drag state tag: which handle is being dragged ('start' | 'end' | 'both'). -/
inductive DragKind where
  | start
  | stop
  | both
deriving DecidableEq, Repr

/-- Pointer-to-instant interpolation of handleDragMove: clamp the pointer
abscissa to the track, take the proportional position in [0,1], and map it
linearly onto the dataset span (`rect.right = rect.left + rect.width`). -/
def dragCurrentTime (rectLeft rectWidth dataStartTime dataEndTime clientX : ℚ) : ℚ :=
  let relativeX := max rectLeft (min (rectLeft + rectWidth) clientX)
  let position := (relativeX - rectLeft) / rectWidth
  dataStartTime + position * (dataEndTime - dataStartTime)

/-- Range update of handleDragMove once the current pointer instant is
known: the dragged bound is clamped to the dataset edge on one side and to
the opposite bound minus/plus the minimum window on the other; a 'both'
drag has no handler branch and leaves the range unchanged. -/
def handleDragMove (kind : DragKind) (selectedRange : SelRange)
    (dataStartTime dataEndTime currentTime : ℚ) : SelRange :=
  match kind with
  | .start =>
    ⟨max dataStartTime (min currentTime (selectedRange.endTime - minWindowSize)),
     selectedRange.endTime⟩
  | .stop =>
    ⟨selectedRange.start,
     min dataEndTime (max currentTime (selectedRange.start + minWindowSize))⟩
  | .both => selectedRange

/-- Clicked instant of handleNavigatorClick: linear interpolation of the
click's proportional position over the navigator dataset span. -/
def clickTimeOf (navigationStart navigationEnd xPercent : ℚ) : ℚ :=
  navigationStart + (navigationEnd - navigationStart) * xPercent

/-- Final Selected Range produced by handleNavigatorClick.  The handler
calls setSelectedRange twice; the second value is the one that persists, so
this models the second computation: center the window of the current width
on the clicked instant, then shift (not shrink) it back inside the dataset
span, first at the left edge, then at the right edge. -/
def handleNavigatorClick (selectedRange : SelRange)
    (navigationStart navigationEnd clickTime : ℚ) : SelRange :=
  let timeRange := selectedRange.endTime - selectedRange.start
  let halfWindowSize := timeRange / 2
  let newStart := clickTime - halfWindowSize
  let newEnd := clickTime + halfWindowSize
  let s1 := if newStart < navigationStart then navigationStart else newStart
  let e1 := if newStart < navigationStart then navigationStart + timeRange else newEnd
  let s2 := if navigationEnd < e1 then navigationEnd - timeRange else s1
  let e2 := if navigationEnd < e1 then navigationEnd else e1
  ⟨s2, e2⟩

/-- Ascending stable sort by parsed timestamp, the model of
`[...rawData].sort((a, b) => new Date(a.date_time).getTime() - new Date(b.date_time).getTime())`. -/
def sortByDate (l : List HashrateData) : List HashrateData :=
  l.mergeSort fun a b => decide (dateGetTime a.date_time ≤ dateGetTime b.date_time)

/-- Component state touched by a fetch effect: the displayed data, the
loading flag and the error message. -/
structure FetchState where
  data : List HashrateData
  loading : Bool
  error : Option String
deriving DecidableEq, Repr

/-- Timestamp of the first element of a list (`sortedData[0]`), defaulting
to 0 on the empty list (unreachable in the source because of the emptiness
check). -/
def headMs (l : List HashrateData) : Int :=
  ((l.head?).map fun s => dateGetTime s.date_time).getD 0

/-- Timestamp of the last element (`sortedData[sortedData.length - 1]`). -/
def lastMs (l : List HashrateData) : Int :=
  ((l.getLast?).map fun s => dateGetTime s.date_time).getD 0

/-- Settlement of the navigator fetch effect (HashrateChart.tsx, first
useEffect): an empty result throws `No data returned from API` inside the
`.then`, which the `.catch` treats exactly like a network failure; a
non-empty result is sorted, stored, and the initial Selected Range is set
to the sorted data's full span. -/
def navEffectResult (rawData : Except String (List HashrateData)) :
    FetchState × Option SelRange :=
  match rawData with
  | .error msg => (⟨[], false, some msg⟩, none)
  | .ok raw =>
    if raw.isEmpty then
      (⟨[], false, some "No data returned from API"⟩, none)
    else
      let sortedData := sortByDate raw
      (⟨sortedData, false, none⟩,
       some ⟨(headMs sortedData : ℚ), (lastMs sortedData : ℚ)⟩)

/-- Range test of the main-chart filter: `date >= rangeStart && date <=
rangeEnd`, where the bounds are the selected range padded by a 5 minute
buffer on each side. -/
def mainFilterPred (selectedRange : SelRange) (item : HashrateData) : Bool :=
  decide (selectedRange.start - 300 * 1000 ≤ (dateGetTime item.date_time : ℚ)) &&
  decide ((dateGetTime item.date_time : ℚ) ≤ selectedRange.endTime + 300 * 1000)

/-- Settlement of the main-chart fetch effect (HashrateChart.tsx, second
useEffect): empty results throw like failures, otherwise the data is
sorted, filtered to the selected range padded by the 5 minute buffer, and
an empty filter result throws as well. -/
def mainEffectResult (selectedRange : SelRange)
    (rawData : Except String (List HashrateData)) : FetchState :=
  match rawData with
  | .error msg => ⟨[], false, some msg⟩
  | .ok raw =>
    if raw.isEmpty then ⟨[], false, some "No data returned from API"⟩
    else
      let sortedData := sortByDate raw
      let fd := sortedData.filter (mainFilterPred selectedRange)
      if fd.isEmpty then ⟨[], false, some "No data available for selected range"⟩
      else ⟨fd, false, none⟩

/-! ## Helper lemmas -/

/-- Looking a key up right after inserting it finds the inserted value. -/
theorem lookupStore_insertStore_self (items : List (String × StoredVal)) (key : String)
    (v : StoredVal) : lookupStore (insertStore items key v) key = some v := by
  induction items with
  | nil => simp [insertStore, lookupStore]
  | cons p rest ih =>
    by_cases hk : p.1 = key
    · simp [insertStore, lookupStore, hk]
    · simp [insertStore, lookupStore, hk, ih]

/-- Looking a key up right after removing it finds nothing. -/
theorem lookupStore_removeStore_self (items : List (String × StoredVal)) (key : String) :
    lookupStore (removeStore items key) key = none := by
  induction items with
  | nil => rfl
  | cons p rest ih =>
    by_cases hk : p.1 = key
    · simpa [removeStore, List.filter_cons, hk] using ih
    · simpa [removeStore, List.filter_cons, hk, lookupStore] using ih

/-- Field-wise equality of samples up to the rendering of the timestamp:
the daaScore and hashrate agree exactly and the timestamps denote the same
millisecond instant. -/
def sameSample (a b : HashrateData) : Prop :=
  a.daaScore = b.daaScore ∧ a.hashrate_kh = b.hashrate_kh ∧
    a.date_time.ms = b.date_time.ms

/-- Slimming then expanding preserves every sample up to timestamp
rendering. -/
theorem expand_slim_same (S : List HashrateData) :
    List.Forall₂ sameSample (expandData (slimDownData S)) S := by
  induction S with
  | nil => simp [expandData, slimDownData]
  | cons x xs ih =>
    refine List.Forall₂.cons ?_ ih
    exact ⟨rfl, rfl, rfl⟩

/-- Unfolding of the main-chart effect on a non-empty successful result. -/
theorem mainEffectResult_ok (r : SelRange) (raw : List HashrateData)
    (hr : raw.isEmpty = false) :
    mainEffectResult r (.ok raw)
      = if ((sortByDate raw).filter (mainFilterPred r)).isEmpty then
          ⟨[], false, some "No data available for selected range"⟩
        else ⟨(sortByDate raw).filter (mainFilterPred r), false, none⟩ := by
  simp only [mainEffectResult, hr, Bool.false_eq_true, if_false]

/-! ## Claims -/

/-- C3: a cache entry written by set(k, S) at time T is returned by get(k)
at T + 9min59s, and at T + 10min01s it is absent and removed from
storage. -/
theorem cache_expiry (st : Storage) (S : List HashrateData)
    (resolution : Option String) (T : Int) (hg : st.getThrows = false)
    (hs : st.setThrows = false) (hr : st.removeThrows = false) :
    (getCachedData (setCachedData st T resolution S).1 (T + 599000) resolution).1
      = some (expandData (slimDownData S))
    ∧ (getCachedData (setCachedData st T resolution S).1 (T + 601000) resolution).1
      = none
    ∧ lookupStore
        ((getCachedData (setCachedData st T resolution S).1 (T + 601000) resolution).2).items
        (cacheKey resolution) = none := by
  have hitems : ((setCachedData st T resolution S).1).items
      = insertStore st.items (cacheKey resolution)
          (StoredVal.entry ⟨slimDownData S, T⟩) := by
    simp [setCachedData, hs]
  have hget : ((setCachedData st T resolution S).1).getThrows = false := by
    simp [setCachedData, hs, hg]
  have hrem : ((setCachedData st T resolution S).1).removeThrows = false := by
    simp [setCachedData, hs, hr]
  have h1 : ¬ (expiryTime < (599000 : Int)) := by norm_num [expiryTime]
  have h2 : expiryTime < (601000 : Int) := by norm_num [expiryTime]
  refine ⟨?_, ?_, ?_⟩
  · simp [getCachedData, hget, hitems, lookupStore_insertStore_self, h1]
  · simp [getCachedData, hget, hrem, hitems, lookupStore_insertStore_self, h2]
  · simp [getCachedData, hget, hrem, hitems, lookupStore_insertStore_self, h2,
      lookupStore_removeStore_self]

/-- C3 witness: the expiry behaviour at a concrete store, key and write
time. -/
theorem cache_expiry_witness :
    (getCachedData (setCachedData ⟨[], false, false, false⟩ 0 none []).1 599000 none).1
      = some (expandData (slimDownData []))
    ∧ (getCachedData (setCachedData ⟨[], false, false, false⟩ 0 none []).1 601000 none).1
      = none
    ∧ lookupStore
        ((getCachedData (setCachedData ⟨[], false, false, false⟩ 0 none []).1 601000 none).2).items
        (cacheKey none) = none := by
  simpa using cache_expiry ⟨[], false, false, false⟩ [] none 0 rfl rfl rfl

/-- C4: set(k, S) followed by get(k) within the freshness window returns a
sequence equal to S up to timestamp rendering: daaScore, hashrate and the
millisecond instant of every sample are preserved. -/
theorem cache_roundtrip (st : Storage) (S : List HashrateData)
    (resolution : Option String) (T T2 : Int) (hg : st.getThrows = false)
    (hs : st.setThrows = false) (hfresh : T2 - T ≤ expiryTime) :
    ∃ L, (getCachedData (setCachedData st T resolution S).1 T2 resolution).1 = some L
      ∧ List.Forall₂ sameSample L S := by
  have hget : ((setCachedData st T resolution S).1).getThrows = false := by
    simp [setCachedData, hs, hg]
  have hl : lookupStore ((setCachedData st T resolution S).1).items (cacheKey resolution)
      = some (StoredVal.entry ⟨slimDownData S, T⟩) := by
    have hitems : ((setCachedData st T resolution S).1).items
        = insertStore st.items (cacheKey resolution)
            (StoredVal.entry ⟨slimDownData S, T⟩) := by
      simp [setCachedData, hs]
    rw [hitems]
    exact lookupStore_insertStore_self st.items (cacheKey resolution) _
  have h1 : ¬ (expiryTime < T2 - T) := not_lt.mpr hfresh
  refine ⟨expandData (slimDownData S), ?_, expand_slim_same S⟩
  simp [getCachedData, hget, hl, h1]

/-- C4 witness: round-trip of a concrete one-sample sequence. -/
theorem cache_roundtrip_witness :
    ∃ L, (getCachedData
        (setCachedData ⟨[], false, false, false⟩ 0 (some "1d")
          [⟨123, 5, ⟨1700000000000, false⟩⟩]).1 0 (some "1d")).1 = some L
      ∧ List.Forall₂ sameSample L [⟨123, 5, ⟨1700000000000, false⟩⟩] :=
  cache_roundtrip ⟨[], false, false, false⟩ [⟨123, 5, ⟨1700000000000, false⟩⟩]
    (some "1d") 0 0 rfl rfl (by simp [expiryTime])

/-- C5 counterexample: the network-error condition does not carry the
response status — two different non-success statuses (404 and 500) produce
the very same error value. -/
theorem fetch_error_ignores_status :
    (fetchWithCache ⟨[], false, false, false⟩ 0 none ⟨404, []⟩).1
      = (fetchWithCache ⟨[], false, false, false⟩ 0 none ⟨500, []⟩).1
    ∧ (404 : Nat) ≠ 500 :=
  ⟨rfl, by decide⟩

/-- C5 (amended): fetch(resolution) first consults the cache — a fresh
entry resolves immediately with the cached data and no network request;
otherwise exactly one network request is issued, a non-success status
fails the operation with the fixed message `Network response was not ok`
(not carrying the status), and a success status resolves with the response
body. -/
theorem fetchWithCache_spec (st : Storage) (now : Int) (resolution : Option String)
    (resp : NetResponse) :
    (∀ cached st1, getCachedData st now resolution = (some cached, st1) →
      fetchWithCache st now resolution resp = (.ok cached, st1, 0))
    ∧ ((getCachedData st now resolution).1 = none →
        (fetchWithCache st now resolution resp).2.2 = 1)
    ∧ ((getCachedData st now resolution).1 = none → resp.ok = false →
        (fetchWithCache st now resolution resp).1
          = .error "Network response was not ok")
    ∧ ((getCachedData st now resolution).1 = none → resp.ok = true →
        (fetchWithCache st now resolution resp).1 = .ok resp.body) := by
  refine ⟨?_, ?_, ?_, ?_⟩
  · intro c s1 h
    simp [fetchWithCache, h]
  · intro h
    rcases hgc : getCachedData st now resolution with ⟨o, st1⟩
    rw [hgc] at h
    simp at h
    subst h
    cases hok : resp.ok <;> simp [fetchWithCache, hgc, hok]
  · intro h hok
    rcases hgc : getCachedData st now resolution with ⟨o, st1⟩
    rw [hgc] at h
    simp at h
    subst h
    simp [fetchWithCache, hgc, hok]
  · intro h hok
    rcases hgc : getCachedData st now resolution with ⟨o, st1⟩
    rw [hgc] at h
    simp at h
    subst h
    simp [fetchWithCache, hgc, hok]

/-- C5 witness: on an empty cache, a 404 response issues one request and
fails with the fixed network-error message. -/
theorem fetchWithCache_spec_witness :
    (fetchWithCache ⟨[], false, false, false⟩ 0 none ⟨404, []⟩).2.2 = 1
    ∧ (fetchWithCache ⟨[], false, false, false⟩ 0 none ⟨404, []⟩).1
        = .error "Network response was not ok" :=
  ⟨(fetchWithCache_spec ⟨[], false, false, false⟩ 0 none ⟨404, []⟩).2.1 rfl,
   (fetchWithCache_spec ⟨[], false, false, false⟩ 0 none ⟨404, []⟩).2.2.1 rfl rfl⟩

/-- C6: the resolution policy depends only on the span length; spans up to
14 days map to full resolution (no parameter), spans in (14, 60] days map
to the 3h bucket, larger spans map to the 1d bucket. -/
theorem resolution_policy_of_span (s e : ℚ) (_h : s ≤ e) :
    (∀ c : ℚ, getResolutionForRange (s + c) (e + c) = getResolutionForRange s e)
    ∧ (e - s ≤ 14 * (1000 * 60 * 60 * 24) → getResolutionForRange s e = none)
    ∧ (14 * (1000 * 60 * 60 * 24) < e - s → e - s ≤ 60 * (1000 * 60 * 60 * 24) →
        getResolutionForRange s e = some "3h")
    ∧ (60 * (1000 * 60 * 60 * 24) < e - s → getResolutionForRange s e = some "1d") := by
  have hpos : (0 : ℚ) < 1000 * 60 * 60 * 24 := by norm_num
  refine ⟨?_, ?_, ?_, ?_⟩
  · intro c
    have hc : e + c - (s + c) = e - s := by ring
    simp only [getResolutionForRange, hc]
  · intro hle
    have h14 : (e - s) / (1000 * 60 * 60 * 24) ≤ 14 := by
      rw [div_le_iff₀ hpos]
      linarith
    simp [getResolutionForRange, h14]
  · intro hlo hhi
    have h14 : ¬ ((e - s) / (1000 * 60 * 60 * 24) ≤ 14) := by
      rw [not_le, lt_div_iff₀ hpos]
      linarith
    have h60 : (e - s) / (1000 * 60 * 60 * 24) ≤ 60 := by
      rw [div_le_iff₀ hpos]
      linarith
    simp [getResolutionForRange, h14, h60]
  · intro hlo
    have h14 : ¬ ((e - s) / (1000 * 60 * 60 * 24) ≤ 14) := by
      rw [not_le, lt_div_iff₀ hpos]
      linarith
    have h60 : ¬ ((e - s) / (1000 * 60 * 60 * 24) ≤ 60) := by
      rw [not_le, lt_div_iff₀ hpos]
      linarith
    simp [getResolutionForRange, h14, h60]

/-- C6 witness: a 40-day span starting at the epoch selects the 3h
bucket. -/
theorem resolution_policy_of_span_witness :
    getResolutionForRange 0 (40 * (1000 * 60 * 60 * 24)) = some "3h" :=
  (resolution_policy_of_span 0 (40 * (1000 * 60 * 60 * 24)) (by norm_num)).2.2.1
    (by norm_num) (by norm_num)

/-- C8: every persistence-layer failure is contained in the cache store: a
throwing read, a missing entry, an unparsable entry, and a throwing
removal of an expired entry all make get return absent with the storage
untouched; a throwing write is reported only by the logged flag and leaves
the storage unchanged; and a fetch with a success response resolves with
data regardless of any of these faults. -/
theorem cache_fault_containment :
    (∀ (st : Storage) (now : Int) (resolution : Option String),
      st.getThrows = true → getCachedData st now resolution = (none, st))
    ∧ (∀ (st : Storage) (now : Int) (resolution : Option String),
        st.getThrows = false →
        lookupStore st.items (cacheKey resolution) = none →
        getCachedData st now resolution = (none, st))
    ∧ (∀ (st : Storage) (now : Int) (resolution : Option String),
        st.getThrows = false →
        lookupStore st.items (cacheKey resolution) = some .junk →
        getCachedData st now resolution = (none, st))
    ∧ (∀ (st : Storage) (now : Int) (resolution : Option String) (e : CacheEntry),
        st.getThrows = false → st.removeThrows = true →
        lookupStore st.items (cacheKey resolution) = some (.entry e) →
        expiryTime < now - e.timestamp →
        getCachedData st now resolution = (none, st))
    ∧ (∀ (st : Storage) (now : Int) (resolution : Option String)
        (data : List HashrateData),
        st.setThrows = true → setCachedData st now resolution data = (st, true))
    ∧ (∀ (st : Storage) (now : Int) (resolution : Option String) (resp : NetResponse),
        resp.ok = true →
        ∃ d, (fetchWithCache st now resolution resp).1 = Except.ok d) := by
  refine ⟨?_, ?_, ?_, ?_, ?_, ?_⟩
  · intro st now resolution hg
    simp [getCachedData, hg]
  · intro st now resolution hg hl
    simp [getCachedData, hg, hl]
  · intro st now resolution hg hl
    simp [getCachedData, hg, hl]
  · intro st now resolution e hg hr hl hexp
    simp [getCachedData, hg, hl, hexp, hr]
  · intro st now resolution data hs
    simp [setCachedData, hs]
  · intro st now resolution resp hok
    rcases hgc : getCachedData st now resolution with ⟨o, st1⟩
    rcases o with _ | cached
    · exact ⟨resp.body, by simp [fetchWithCache, hgc, hok]⟩
    · exact ⟨cached, by simp [fetchWithCache, hgc]⟩

/-- C8 witness: a store whose read throws yields a cache miss with the
store unchanged, and a successful response still resolves the fetch with
data on that faulty store. -/
theorem cache_fault_containment_witness :
    getCachedData ⟨[], true, true, true⟩ 0 none = (none, ⟨[], true, true, true⟩)
    ∧ ∃ d, (fetchWithCache ⟨[], true, true, true⟩ 0 none ⟨200, []⟩).1 = Except.ok d :=
  ⟨cache_fault_containment.1 ⟨[], true, true, true⟩ 0 none rfl,
   cache_fault_containment.2.2.2.2.2 ⟨[], true, true, true⟩ 0 none ⟨200, []⟩ rfl⟩

/-- C1: during a drag of the start or end navigator handle, for every
pointer position, the updated Selected Range keeps a width of at least
1 hour and stays within the navigator dataset's span: the dragged bound
never leaves the dataset edge on one side nor crosses the opposite bound
minus the minimum window on the other. -/
theorem drag_clamp_invariant (kind : DragKind) (r : SelRange)
    (dataStartTime dataEndTime rectLeft rectWidth clientX : ℚ)
    (hs : dataStartTime ≤ r.start) (hw : r.start + minWindowSize ≤ r.endTime)
    (he : r.endTime ≤ dataEndTime) :
    dataStartTime ≤ (handleDragMove kind r dataStartTime dataEndTime
        (dragCurrentTime rectLeft rectWidth dataStartTime dataEndTime clientX)).start
    ∧ (handleDragMove kind r dataStartTime dataEndTime
          (dragCurrentTime rectLeft rectWidth dataStartTime dataEndTime clientX)).start
        + minWindowSize
      ≤ (handleDragMove kind r dataStartTime dataEndTime
          (dragCurrentTime rectLeft rectWidth dataStartTime dataEndTime clientX)).endTime
    ∧ (handleDragMove kind r dataStartTime dataEndTime
          (dragCurrentTime rectLeft rectWidth dataStartTime dataEndTime clientX)).endTime
      ≤ dataEndTime := by
  set c := dragCurrentTime rectLeft rectWidth dataStartTime dataEndTime clientX with hc
  cases kind with
  | start =>
    have h1 : dataStartTime ≤ r.endTime - minWindowSize := by linarith
    have h2 : max dataStartTime (min c (r.endTime - minWindowSize))
        ≤ r.endTime - minWindowSize := max_le h1 (min_le_right _ _)
    refine ⟨le_max_left _ _, ?_, he⟩
    show max dataStartTime (min c (r.endTime - minWindowSize)) + minWindowSize ≤ r.endTime
    linarith
  | stop =>
    have h1 : r.start + minWindowSize ≤ dataEndTime := le_trans hw he
    refine ⟨hs, ?_, min_le_left _ _⟩
    show r.start + minWindowSize ≤ min dataEndTime (max c (r.start + minWindowSize))
    exact le_min h1 (le_max_right _ _)
  | both => exact ⟨hs, hw, he⟩

/-- C1 witness: dragging the start handle at a concrete pointer position
over a concrete dataset keeps the range clamped. -/
theorem drag_clamp_invariant_witness :
    (0 : ℚ) ≤ (handleDragMove .start ⟨0, 7200000⟩ 0 10000000
        (dragCurrentTime 0 100 0 10000000 50)).start
    ∧ (handleDragMove .start ⟨0, 7200000⟩ 0 10000000
          (dragCurrentTime 0 100 0 10000000 50)).start + minWindowSize
      ≤ (handleDragMove .start ⟨0, 7200000⟩ 0 10000000
          (dragCurrentTime 0 100 0 10000000 50)).endTime
    ∧ (handleDragMove .start ⟨0, 7200000⟩ 0 10000000
          (dragCurrentTime 0 100 0 10000000 50)).endTime ≤ 10000000 :=
  drag_clamp_invariant .start ⟨0, 7200000⟩ 0 10000000 0 100 50
    (by show (0 : ℚ) ≤ 0; norm_num)
    (by show (0 : ℚ) + minWindowSize ≤ 7200000; norm_num [minWindowSize])
    (by show (7200000 : ℚ) ≤ 10000000; norm_num)

/-- C2: a click on the navigator track at the position of the dataset's
last timestamp, with an existing window of width W no larger than the
dataset span, produces the window from (last − W) to last: shifted to end
at the last timestamp, width preserved. -/
theorem click_recenter_at_last (r : SelRange) (navigationStart navigationEnd : ℚ)
    (h0 : 0 ≤ r.endTime - r.start)
    (hW : r.endTime - r.start ≤ navigationEnd - navigationStart) :
    handleNavigatorClick r navigationStart navigationEnd
        (clickTimeOf navigationStart navigationEnd 1)
      = ⟨navigationEnd - (r.endTime - r.start), navigationEnd⟩ := by
  have hclick : clickTimeOf navigationStart navigationEnd 1 = navigationEnd := by
    simp [clickTimeOf]
  rw [hclick]
  have hfirst : ¬ (navigationEnd - (r.endTime - r.start) / 2 < navigationStart) := by
    push_neg
    linarith
  simp only [handleNavigatorClick, hfirst, if_neg, if_false]
  rcases lt_or_eq_of_le h0 with hpos | hzero
  · have hsecond : navigationEnd < navigationEnd + (r.endTime - r.start) / 2 := by
      linarith
    simp only [hsecond, if_true, if_pos]
  · have hsecond : ¬ (navigationEnd < navigationEnd + (r.endTime - r.start) / 2) := by
      rw [← hzero]
      simp
    simp only [hsecond, if_neg, if_false, SelRange.mk.injEq]
    constructor <;> linarith

/-- C2 witness: a 1-hour window over a 2-hour dataset, clicked at the last
timestamp, moves to the final hour of the dataset. -/
theorem click_recenter_at_last_witness :
    handleNavigatorClick ⟨0, 3600000⟩ 0 7200000 (clickTimeOf 0 7200000 1)
      = ⟨7200000 - ((3600000 : ℚ) - 0), 7200000⟩ :=
  click_recenter_at_last ⟨0, 3600000⟩ 0 7200000
    (by show (0 : ℚ) ≤ 3600000 - 0; norm_num)
    (by show (3600000 : ℚ) - 0 ≤ 7200000 - 0; norm_num)

/-- C7: the range filter keeps exactly the samples whose timestamp is at
or after the preset's start instant (`now` minus the preset duration; the
epoch for `all`), boundary inclusive, preserving the input order and
excluding no in-range sample; with the `all` preset and non-negative
timestamps it returns the full input. -/
theorem range_filter_spec (data : List HashrateData) (now : Int) (p : String)
    (strt : Int) (hp : presetStart p now = some strt) :
    filteredData data p now
      = data.filter (fun s => decide (strt ≤ dateGetTime s.date_time))
    ∧ (filteredData data p now).Sublist data
    ∧ (∀ s ∈ data, strt ≤ dateGetTime s.date_time → s ∈ filteredData data p now)
    ∧ presetStart "24h" now = some (now - 24 * 3600000)
    ∧ presetStart "7d" now = some (now - 7 * 86400000)
    ∧ presetStart "30d" now = some (now - 30 * 86400000)
    ∧ presetStart "all" now = some 0
    ∧ (p = "all" → (∀ s ∈ data, 0 ≤ dateGetTime s.date_time) →
        filteredData data p now = data) := by
  rcases hfind : dateRanges.find? (fun r => r.value == p) with _ | row
  · rw [presetStart, hfind] at hp
    cases hp
  · rw [presetStart, hfind] at hp
    replace hp : row.getFn now = strt := by simpa using hp
    have hfd : filteredData data p now
        = data.filter (fun s => decide (strt ≤ dateGetTime s.date_time)) := by
      unfold filteredData
      rw [hfind]
      simp only [hp]
    have hall : presetStart "all" now = some 0 := rfl
    refine ⟨hfd, ?_, ?_, rfl, rfl, rfl, hall, ?_⟩
    · rw [hfd]
      exact List.filter_sublist data
    · intro s hsin hle
      rw [hfd]
      exact List.mem_filter.mpr ⟨hsin, by simpa using hle⟩
    · intro hpall hnn
      subst hpall
      have hrow : dateRanges.find? (fun r => r.value == "all")
          = some ⟨"All", "all", fun _ => 0⟩ := rfl
      rw [hrow] at hfind
      injection hfind with h
      have hz : strt = 0 := by rw [← hp, ← h]
      rw [hfd, hz]
      refine List.filter_eq_self.mpr ?_
      intro s hsin
      simpa using hnn s hsin

/-- C7 witness: the 7-day preset at a concrete `now` keeps exactly the
samples at or after the boundary. -/
theorem range_filter_spec_witness :
    (filteredData [⟨1, 5, ⟨-604800000, false⟩⟩, ⟨2, 6, ⟨0, false⟩⟩] "7d" 0
      = List.filter (fun s => decide (-604800000 ≤ dateGetTime s.date_time))
          [⟨1, 5, ⟨-604800000, false⟩⟩, ⟨2, 6, ⟨0, false⟩⟩])
    ∧ (filteredData [⟨1, 5, ⟨-604800000, false⟩⟩, ⟨2, 6, ⟨0, false⟩⟩] "7d" 0).Sublist
        [⟨1, 5, ⟨-604800000, false⟩⟩, ⟨2, 6, ⟨0, false⟩⟩]
    ∧ (∀ s ∈ ([⟨1, 5, ⟨-604800000, false⟩⟩, ⟨2, 6, ⟨0, false⟩⟩] : List HashrateData),
        -604800000 ≤ dateGetTime s.date_time →
        s ∈ filteredData [⟨1, 5, ⟨-604800000, false⟩⟩, ⟨2, 6, ⟨0, false⟩⟩] "7d" 0)
    ∧ presetStart "24h" 0 = some (0 - 24 * 3600000)
    ∧ presetStart "7d" 0 = some (0 - 7 * 86400000)
    ∧ presetStart "30d" 0 = some (0 - 30 * 86400000)
    ∧ presetStart "all" 0 = some 0
    ∧ ("7d" = "all" →
        (∀ s ∈ ([⟨1, 5, ⟨-604800000, false⟩⟩, ⟨2, 6, ⟨0, false⟩⟩] : List HashrateData),
          0 ≤ dateGetTime s.date_time) →
        filteredData [⟨1, 5, ⟨-604800000, false⟩⟩, ⟨2, 6, ⟨0, false⟩⟩] "7d" 0
          = [⟨1, 5, ⟨-604800000, false⟩⟩, ⟨2, 6, ⟨0, false⟩⟩]) :=
  range_filter_spec [⟨1, 5, ⟨-604800000, false⟩⟩, ⟨2, 6, ⟨0, false⟩⟩] 0 "7d"
    (-604800000) rfl

/-- C9: a successful fetch with zero samples is handled exactly like a
fetch failure — the effect state carries an error and the displayed data
is cleared — and an error-free (Ready) state only arises from a success
with a non-empty result. -/
theorem empty_result_error_state :
    navEffectResult (.ok []) = navEffectResult (.error "No data returned from API")
    ∧ (∀ res, (navEffectResult res).1.error = none →
        ∃ raw, res = .ok raw ∧ raw ≠ [])
    ∧ (∀ r : SelRange, mainEffectResult r (.ok [])
        = mainEffectResult r (.error "No data returned from API"))
    ∧ (∀ (r : SelRange) res, (mainEffectResult r res).error = none →
        ∃ raw, res = .ok raw ∧ raw ≠ [])
    ∧ (∀ res, (navEffectResult res).1.error ≠ none →
        (navEffectResult res).1.data = [])
    ∧ (∀ (r : SelRange) res, (mainEffectResult r res).error ≠ none →
        (mainEffectResult r res).data = []) := by
  refine ⟨rfl, ?_, fun r => rfl, ?_, ?_, ?_⟩
  · intro res h
    cases res with
    | error msg => simp [navEffectResult] at h
    | ok raw =>
      by_cases hr : raw.isEmpty
      · simp [navEffectResult, hr] at h
      · exact ⟨raw, rfl, by simpa [List.isEmpty_iff] using hr⟩
  · intro r res h
    cases res with
    | error msg => simp [mainEffectResult] at h
    | ok raw =>
      by_cases hr : raw = []
      · subst hr
        simp [mainEffectResult] at h
      · exact ⟨raw, rfl, hr⟩
  · intro res h
    cases res with
    | error msg => rfl
    | ok raw =>
      by_cases hr : raw.isEmpty
      · simp [navEffectResult, hr]
      · exact absurd (by simp [navEffectResult, hr]) h
  · intro r res h
    cases res with
    | error msg => rfl
    | ok raw =>
      cases hre : raw.isEmpty with
      | true => simp [mainEffectResult, hre]
      | false =>
        rw [mainEffectResult_ok r raw hre] at h ⊢
        cases hf : ((sortByDate raw).filter (mainFilterPred r)).isEmpty with
        | true => simp [hf]
        | false =>
          rw [hf] at h
          simp at h

/-- C9 witness: a non-empty successful result yields an error-free state,
and the theorem recovers the non-empty success from it. -/
theorem empty_result_error_state_witness :
    ∃ raw, (Except.ok [(⟨1, 5, ⟨3, false⟩⟩ : HashrateData)]
        : Except String (List HashrateData)) = .ok raw ∧ raw ≠ [] :=
  empty_result_error_state.2.1 (.ok [⟨1, 5, ⟨3, false⟩⟩]) rfl

/-- Merge-sorting by parsed timestamp yields a list that is pairwise
ordered by parsed timestamp. -/
theorem sortByDate_pairwise (l : List HashrateData) :
    List.Pairwise (fun a b => dateGetTime a.date_time ≤ dateGetTime b.date_time)
      (sortByDate l) := by
  have htrans : ∀ a b c : HashrateData,
      decide (dateGetTime a.date_time ≤ dateGetTime b.date_time) = true →
      decide (dateGetTime b.date_time ≤ dateGetTime c.date_time) = true →
      decide (dateGetTime a.date_time ≤ dateGetTime c.date_time) = true := by
    intro a b c h1 h2
    simp only [decide_eq_true_eq] at h1 h2 ⊢
    exact le_trans h1 h2
  have htotal : ∀ a b : HashrateData,
      (decide (dateGetTime a.date_time ≤ dateGetTime b.date_time) ||
       decide (dateGetTime b.date_time ≤ dateGetTime a.date_time)) = true := by
    intro a b
    simp only [Bool.or_eq_true, decide_eq_true_eq]
    exact le_total _ _
  exact (List.sorted_mergeSort htrans htotal l).imp fun h => of_decide_eq_true h

/-- C10: both fetch pipelines sort the fetched samples ascending by
timestamp before further use: the navigator state and its span
computation, and the main chart's filter input, are all derived from the
merge-sorted sequence, which is pairwise ordered for every raw response
order. -/
theorem pipeline_sorted (raw : List HashrateData) (r : SelRange)
    (res : Except String (List HashrateData)) :
    List.Pairwise (fun a b => dateGetTime a.date_time ≤ dateGetTime b.date_time)
      (sortByDate raw)
    ∧ List.Pairwise (fun a b => dateGetTime a.date_time ≤ dateGetTime b.date_time)
        ((navEffectResult res).1.data)
    ∧ List.Pairwise (fun a b => dateGetTime a.date_time ≤ dateGetTime b.date_time)
        ((mainEffectResult r res).data)
    ∧ ((navEffectResult (.ok raw)).1.data
        = if raw.isEmpty then [] else sortByDate raw)
    ∧ ((navEffectResult (.ok raw)).2
        = if raw.isEmpty then none
          else some ⟨(headMs (sortByDate raw) : ℚ), (lastMs (sortByDate raw) : ℚ)⟩)
    ∧ ((mainEffectResult r (.ok raw)).data = []
        ∨ (mainEffectResult r (.ok raw)).data
          = (sortByDate raw).filter (mainFilterPred r)) := by
  refine ⟨sortByDate_pairwise raw, ?_, ?_, ?_, ?_, ?_⟩
  · cases res with
    | error msg => simp [navEffectResult]
    | ok l =>
      by_cases hl : l.isEmpty
      · simp [navEffectResult, hl]
      · simpa [navEffectResult, hl] using sortByDate_pairwise l
  · cases res with
    | error msg => simp [mainEffectResult]
    | ok l =>
      cases hle : l.isEmpty with
      | true => simp [mainEffectResult, hle]
      | false =>
        rw [mainEffectResult_ok r l hle]
        cases hf : ((sortByDate l).filter (mainFilterPred r)).isEmpty with
        | true => simp [hf]
        | false =>
          simpa using
            List.Pairwise.sublist (List.filter_sublist _) (sortByDate_pairwise l)
  · by_cases hr : raw.isEmpty <;> simp [navEffectResult, hr]
  · by_cases hr : raw.isEmpty <;> simp [navEffectResult, hr]
  · cases hre : raw.isEmpty with
    | true =>
      left
      simp [mainEffectResult, hre]
    | false =>
      rw [mainEffectResult_ok r raw hre]
      cases hf : ((sortByDate raw).filter (mainFilterPred r)).isEmpty with
      | true =>
        left
        simp [hf]
      | false =>
        right
        simp [hf]

end Kaspa
